import Mathlib

/-!
# Verification of the python-template-server core

A shallow embedding, in Lean 4, of the parts of the `python_template_server`
package that its specification makes claims about: token hashing and
verification (`authentication_handler.py`), the API-key gate and health
endpoint (`template_server.py`), token persistence into the env-style store,
certificate bootstrap and generation (`certificate_handler.py`), and
configuration validation (`models.py`, `config.py`).

Machine words are `Nat` with explicit reduction modulo `2 ^ 32`; strings are
Lean `String`; fallible operations return `Except`; the env-store and the
certificate files are explicit state values threaded through the functions
that the Python code lets mutate them.
-/

namespace PTS

/-! ## SHA-256 (embedding of `hashlib.sha256`)

`authentication_handler.hash_token` delegates to `hashlib.sha256` over the
UTF-8 encoding of the token and returns the lowercase hex digest.  The hash
itself is external library code; it is embedded here as the FIPS 180-4
algorithm, byte lists over `Nat`, words reduced modulo `2 ^ 32`. -/

/-- Reduce a `Nat` to a 32-bit word. -/
def w32 (n : Nat) : Nat := n % 2 ^ 32

/-- Right rotation of a 32-bit word by `n` bits. -/
def rotr (n x : Nat) : Nat := w32 ((x >>> n) ||| (x <<< (32 - n)))

/-- SHA-256 big sigma 0. -/
def bsig0 (x : Nat) : Nat := rotr 2 x ^^^ rotr 13 x ^^^ rotr 22 x

/-- SHA-256 big sigma 1. -/
def bsig1 (x : Nat) : Nat := rotr 6 x ^^^ rotr 11 x ^^^ rotr 25 x

/-- SHA-256 small sigma 0. -/
def ssig0 (x : Nat) : Nat := rotr 7 x ^^^ rotr 18 x ^^^ (x >>> 3)

/-- SHA-256 small sigma 1. -/
def ssig1 (x : Nat) : Nat := rotr 17 x ^^^ rotr 19 x ^^^ (x >>> 10)

/-- SHA-256 choice function. -/
def chF (e f g : Nat) : Nat := (e &&& f) ^^^ ((e ^^^ (2 ^ 32 - 1)) &&& g)

/-- SHA-256 majority function. -/
def majF (a b c : Nat) : Nat := (a &&& b) ^^^ (a &&& c) ^^^ (b &&& c)

/-- The 64 SHA-256 round constants (fractional parts of the cube roots of the
first 64 primes). -/
def sha256K : List Nat :=
  [1116352408, 1899447441, 3049323471, 3921009573, 961987163,
   1508970993, 2453635748, 2870763221, 3624381080, 310598401,
   607225278, 1426881987, 1925078388, 2162078206, 2614888103,
   3248222580, 3835390401, 4022224774, 264347078, 604807628,
   770255983, 1249150122, 1555081692, 1996064986, 2554220882,
   2821834349, 2952996808, 3210313671, 3336571891, 3584528711,
   113926993, 338241895, 666307205, 773529912, 1294757372,
   1396182291, 1695183700, 1986661051, 2177026350, 2456956037,
   2730485921, 2820302411, 3259730800, 3345764771, 3516065817,
   3600352804, 4094571909, 275423344, 430227734, 506948616,
   659060556, 883997877, 958139571, 1322822218, 1537002063,
   1747873779, 1955562222, 2024104815, 2227730452, 2361852424,
   2428436474, 2756734187, 3204031479, 3329325298]

/-- The SHA-256 working state: eight 32-bit words. -/
structure HashState where
  a : Nat
  b : Nat
  c : Nat
  d : Nat
  e : Nat
  f : Nat
  g : Nat
  h : Nat

/-- The SHA-256 initial hash value (fractional parts of the square roots of
the first 8 primes). -/
def sha256Init : HashState :=
  ⟨1779033703, 3144134277, 1013904242, 2773480762,
   1359893119, 2600822924, 528734635, 1541459225⟩

/-- One SHA-256 round with round constant `k` and schedule word `wt`. -/
def sha256Round (k wt : Nat) (s : HashState) : HashState :=
  let t1 := w32 (s.h + bsig1 s.e + chF s.e s.f s.g + k + wt)
  let t2 := w32 (bsig0 s.a + majF s.a s.b s.c)
  ⟨w32 (t1 + t2), s.a, s.b, s.c, w32 (s.d + t1), s.e, s.f, s.g⟩

/-- The big-endian 32-bit word starting at byte offset `4 * i` of a block. -/
def wordAt (block : List Nat) (i : Nat) : Nat :=
  block.getD (4 * i) 0 * 2 ^ 24 + block.getD (4 * i + 1) 0 * 2 ^ 16 +
    block.getD (4 * i + 2) 0 * 2 ^ 8 + block.getD (4 * i + 3) 0

/-- The 64-entry message schedule of one 64-byte block. -/
def msgSchedule (block : List Nat) : List Nat :=
  (List.range 64).foldl
    (fun w i =>
      if i < 16 then w ++ [wordAt block i]
      else w ++ [w32 (ssig1 (w.getD (i - 2) 0) + w.getD (i - 7) 0 +
                      ssig0 (w.getD (i - 15) 0) + w.getD (i - 16) 0)])
    []

/-- Process one 64-byte block: 64 rounds, then add the working state back
into the chaining value. -/
def compressBlock (hv : HashState) (block : List Nat) : HashState :=
  let w := msgSchedule block
  let s := (List.range 64).foldl
    (fun st i => sha256Round (sha256K.getD i 0) (w.getD i 0) st) hv
  ⟨w32 (hv.a + s.a), w32 (hv.b + s.b), w32 (hv.c + s.c), w32 (hv.d + s.d),
   w32 (hv.e + s.e), w32 (hv.f + s.f), w32 (hv.g + s.g), w32 (hv.h + s.h)⟩

/-- The 8-byte big-endian encoding of the message bit length. -/
def lenBytes (n : Nat) : List Nat :=
  [n / 2 ^ 56 % 256, n / 2 ^ 48 % 256, n / 2 ^ 40 % 256, n / 2 ^ 32 % 256,
   n / 2 ^ 24 % 256, n / 2 ^ 16 % 256, n / 2 ^ 8 % 256, n % 256]

/-- SHA-256 padding: append `0x80`, zero bytes up to 56 mod 64, then the
64-bit message bit length. -/
def sha256Pad (msg : List Nat) : List Nat :=
  let L := msg.length
  let k := (120 - (L + 1) % 64) % 64
  msg ++ [0x80] ++ List.replicate k 0 ++ lenBytes (8 * L)

/-- Split a byte list into its successive 64-byte blocks. -/
def chunks64 (l : List Nat) : List (List Nat) :=
  if h : l = [] then []
  else
    have : l.length - 64 < l.length := by
      have : 0 < l.length := List.length_pos.mpr h
      omega
    l.take 64 :: chunks64 (l.drop 64)
termination_by l.length
decreasing_by simpa using this

/-- The four big-endian bytes of a 32-bit word. -/
def wordBytes (wd : Nat) : List Nat :=
  [wd / 2 ^ 24 % 256, wd / 2 ^ 16 % 256, wd / 2 ^ 8 % 256, wd % 256]

/-- SHA-256 of a byte list, as the 32 digest bytes. -/
def sha256 (msg : List Nat) : List Nat :=
  let final := (chunks64 (sha256Pad msg)).foldl compressBlock sha256Init
  [final.a, final.b, final.c, final.d,
   final.e, final.f, final.g, final.h].flatMap wordBytes

/-! ## Hex digests and UTF-8 (embedding of `.hexdigest()` and `str.encode()`) -/

/-- The lowercase hexadecimal alphabet `string.hexdigits` uses. -/
def hexAlphabet : String := "0123456789abcdef"

/-- The sixteen lowercase hexadecimal digits, in value order. -/
def hexDigits : List Char := hexAlphabet.data

/-- The two lowercase hex characters of one byte. -/
def byteHex (b : Nat) : List Char :=
  [hexDigits.getD (b / 16 % 16) '0', hexDigits.getD (b % 16) '0']

/-- The lowercase hex string of a byte list. -/
def hexDigest (bytes : List Nat) : String :=
  ⟨bytes.flatMap byteHex⟩

/-- The UTF-8 bytes of one character (`str.encode()` on one code point). -/
def utf8Char (c : Char) : List Nat :=
  let n := c.toNat
  if n < 0x80 then [n]
  else if n < 0x800 then
    [0xC0 ||| (n >>> 6), 0x80 ||| (n &&& 0x3F)]
  else if n < 0x10000 then
    [0xE0 ||| (n >>> 12), 0x80 ||| ((n >>> 6) &&& 0x3F), 0x80 ||| (n &&& 0x3F)]
  else
    [0xF0 ||| (n >>> 18), 0x80 ||| ((n >>> 12) &&& 0x3F),
     0x80 ||| ((n >>> 6) &&& 0x3F), 0x80 ||| (n &&& 0x3F)]

/-- The UTF-8 bytes of a string (`str.encode()`). -/
def strBytes (s : String) : List Nat :=
  s.data.flatMap utf8Char

/-! ## `authentication_handler.py` -/

/-- `hash_token`: SHA-256 of the UTF-8 encoding of the token, as the
lowercase hex digest (`hashlib.sha256(token.encode()).hexdigest()`). -/
def hash_token (token : String) : String :=
  hexDigest (sha256 (strBytes token))

/-- `verify_token`: raises `ValueError` (here: `Except.error` with the
message) when the stored hash is empty, otherwise compares the recomputed
hash with the stored hash. -/
def verify_token (token : String) (hashed_token : String) : Except String Bool :=
  if hashed_token = "" then
    Except.error "No stored token hash found for verification."
  else
    Except.ok (hash_token token == hashed_token)

/-! ## The env-style token store

`save_hashed_token` / `load_hashed_token` delegate file access to the
`python-dotenv` library.  The file is embedded as the list of its `KEY=VALUE`
entries in order; a missing file is `Option.none`.  `dotenv.set_key` and
`load_dotenv` followed by `os.getenv(name, "")` are embedded by their
documented contract: set the named key in place (appending it when absent),
read the named key (empty string when absent). -/

/-- `TOKEN_ENV_VAR_NAME` from `constants.py`: the single recognized key. -/
def ENV_VAR_NAME : String := "API_TOKEN_HASH"

/-- An env-style file: its `KEY=VALUE` entries in file order. -/
abbrev EnvFile := List (String × String)

/-- `dotenv.set_key`: rewrite every entry carrying key `k` to the new
`k=v` line in place, or append `k=v` at the end when no entry carries
`k`. -/
def setKey (file : EnvFile) (k v : String) : EnvFile :=
  if file.any (fun p => p.1 == k) then
    file.map (fun p => if p.1 = k then (k, v) else p)
  else
    file ++ [(k, v)]

/-- `dotenv.load_dotenv` + `os.getenv(name, "")`: load the file into the
environment, where a later line overrides an earlier one with the same key,
and read key `k` back, `""` when no line carries it.  The last `k`-entry of
the file therefore wins. -/
def getKey (file : EnvFile) (k : String) : String :=
  ((file.reverse.find? (fun p => p.1 == k)).map Prod.snd).getD ""

/-- `save_hashed_token`: hash the token, create the env file when absent
(`ENV_FILE_PATH.touch()`), and set the recognized key to the digest. -/
def save_hashed_token (token : String) (store : Option EnvFile) : EnvFile :=
  let hashed := hash_token token
  let file := store.getD []
  setKey file ENV_VAR_NAME hashed

/-- `load_hashed_token`: the value of the recognized key, or `""` when the
file is absent or has no such entry. -/
def load_hashed_token (store : Option EnvFile) : String :=
  getKey (store.getD []) ENV_VAR_NAME

/-! ## `template_server.py`: the authentication gate -/

/-- `ResponseCode.UNAUTHORIZED` from `models.py`. -/
def UNAUTHORIZED : Nat := 401

/-- `ResponseCode.OK` from `models.py`. -/
def OK : Nat := 200

/-- `ResponseCode.INTERNAL_SERVER_ERROR` from `models.py`. -/
def INTERNAL_SERVER_ERROR : Nat := 500

/-- The observable outcome of `TemplateServer._verify_api_key`: either the
request is allowed through, or an `HTTPException` with a status code and a
detail string is raised. -/
inductive AuthOutcome where
  | allow : AuthOutcome
  | reject (status : Nat) (detail : String) : AuthOutcome
deriving DecidableEq, Repr

/-- `TemplateServer._verify_api_key`: `None` header rejects with
`"Missing API key"`; a failed comparison rejects with `"Invalid API key"`;
a `ValueError` from `verify_token` (empty stored hash) is caught and
rejected with the error message as detail; a successful comparison allows
the request.  `self.hashed_token` is the first argument. -/
def verify_api_key (hashed_token : String) (api_key : Option String) : AuthOutcome :=
  match api_key with
  | none => AuthOutcome.reject UNAUTHORIZED "Missing API key"
  | some key =>
    match verify_token key hashed_token with
    | Except.error e => AuthOutcome.reject UNAUTHORIZED e
    | Except.ok true => AuthOutcome.allow
    | Except.ok false => AuthOutcome.reject UNAUTHORIZED "Invalid API key"

/-! ## `template_server.py`: authentication metrics (C4)

`prometheus_handler.py` declares an `auth_success_total` counter and an
`auth_failure_total` counter labelled by `reason`.  The body of
`_verify_api_key` in `template_server.py`, however, contains no call to
`PrometheusHandler.increment_counter` on any path (the `TemplateServer`
class holds no `PrometheusHandler` at all), so the gate's effect on those
counters is embedded as what the code does: nothing. -/

/-- The authentication counters: `auth_success_total` and the three `reason`
label values of `auth_failure_total`. -/
structure AuthMetrics where
  success : Nat
  missing : Nat
  invalid : Nat
  error : Nat
deriving DecidableEq, Repr

/-- The sum of the four authentication counters. -/
def AuthMetrics.total (m : AuthMetrics) : Nat :=
  m.success + m.missing + m.invalid + m.error

/-- One gate invocation together with its effect on the authentication
counters.  `_verify_api_key` (template_server.py lines 155-183) performs no
`increment_counter` call on any of its four paths, so the counters are
returned unchanged whatever the outcome. -/
def verify_api_key_metrics (hashed_token : String) (api_key : Option String)
    (m : AuthMetrics) : AuthOutcome × AuthMetrics :=
  (verify_api_key hashed_token api_key, m)

/-! ## `template_server.py`: the health endpoint -/

/-- `ServerHealthStatus` from `models.py`: a three-valued status enum. -/
inductive ServerHealthStatus where
  | healthy : ServerHealthStatus
  | degraded : ServerHealthStatus
  | unhealthy : ServerHealthStatus
deriving DecidableEq, Repr

/-- `GetHealthResponse` from `models.py`: the `{code, message, timestamp,
status}` payload. -/
structure GetHealthResponse where
  code : Nat
  message : String
  timestamp : String
  status : ServerHealthStatus
deriving DecidableEq, Repr

/-- `TemplateServer.get_health`: the unhealthy payload when the loaded token
hash is empty, the healthy payload otherwise.  `self.hashed_token` and the
generation-time timestamp are the arguments. -/
def get_health (hashed_token : String) (ts : String) : GetHealthResponse :=
  if hashed_token = "" then
    { code := INTERNAL_SERVER_ERROR
      message := "Server token is not configured"
      timestamp := ts
      status := ServerHealthStatus.unhealthy }
  else
    { code := OK
      message := "Server is healthy"
      timestamp := ts
      status := ServerHealthStatus.healthy }

/-- The `/health` route as wired by `setup_routes` /
`add_unauthenticated_route`: `add_api_route` is called without a
`status_code` argument, so the framework sends the handler's payload with
its default transport status, 200.  The pair is (HTTP status line, body). -/
def health_route (hashed_token : String) (ts : String) : Nat × GetHealthResponse :=
  (200, get_health hashed_token ts)

/-! ## `certificate_handler.py`

The key material and the certificate serial drawn at generation time are
random; here they are the `material` and `serial` parameters.  The two
`datetime.now(UTC)` reads inside the builder chain happen at one generation
instant, embedded as the single `now` parameter (seconds). -/

/-- The number of seconds in a day (`timedelta(days=1)`). -/
def secondsPerDay : Nat := 86400

/-- An RSA private key as produced by `rsa.generate_private_key`:
its parameters and the random key material drawn for it. -/
structure RSAKey where
  public_exponent : Nat
  key_size : Nat
  material : Nat
deriving DecidableEq, Repr

/-- `CertificateHandler.new_private_key`: RSA, exponent 65537, 4096-bit
modulus; `material` is the fresh randomness of this call. -/
def new_private_key (material : Nat) : RSAKey :=
  { public_exponent := 65537, key_size := 4096, material := material }

/-- `CertificateHandler.certificate_subject`: the fixed development-only
X.509 name, as its attribute list. -/
def certificate_subject : List (String × String) :=
  [("COUNTRY_NAME", "UK"), ("STATE_OR_PROVINCE_NAME", "Local"),
   ("LOCALITY_NAME", "Local"), ("ORGANIZATION_NAME", "Development"),
   ("COMMON_NAME", "localhost")]

/-- A Subject Alternative Name entry: `x509.DNSName` or `x509.IPAddress`. -/
inductive GeneralName where
  | dns (name : String) : GeneralName
  | ip (address : String) : GeneralName
deriving DecidableEq, Repr

/-- The certificate built by the `x509.CertificateBuilder` chain in
`generate_self_signed_cert`. -/
structure Certificate where
  subject : List (String × String)
  issuer : List (String × String)
  publicKeyOf : RSAKey
  serial : Nat
  notBefore : Nat
  notAfter : Nat
  sanNames : List GeneralName
  sanCritical : Bool
deriving DecidableEq, Repr

/-- The serialization encoding passed to `private_bytes` / `public_bytes`. -/
inductive Encoding where
  | pem : Encoding
  | der : Encoding
deriving DecidableEq, Repr

/-- The on-disk state of the two certificate files (`key.pem`, `cert.pem`):
`none` is an absent file. -/
structure CertFiles where
  keyFile : Option (Encoding × RSAKey)
  certFile : Option (Encoding × Certificate)
deriving DecidableEq, Repr

/-- `CertificateHandler.generate_self_signed_cert`: generate a key, build
the self-signed certificate (subject and issuer both
`certificate_subject`, validity `days_valid` days from `now`, non-critical
SAN for localhost and the IPv4 loopback), and write both artifacts in PEM
form.  Returns the resulting file state and the number of file writes. -/
def generate_self_signed_cert (days_valid : Nat) (now material serial : Nat) :
    CertFiles × Nat :=
  let private_key := new_private_key material
  let certificate : Certificate :=
    { subject := certificate_subject
      issuer := certificate_subject
      publicKeyOf := private_key
      serial := serial
      notBefore := now
      notAfter := now + days_valid * secondsPerDay
      sanNames := [GeneralName.dns "localhost", GeneralName.dns "127.0.0.1",
                   GeneralName.ip "127.0.0.1"]
      sanCritical := false }
  ({ keyFile := some (Encoding.pem, private_key)
     certFile := some (Encoding.pem, certificate) }, 2)

/-- The certificate bootstrap step of `TemplateServer.run`: when the
certificate file and the key file both exist, do nothing; otherwise call
`generate_self_signed_cert`.  Returns the file state and the write count. -/
def bootstrapCertificates (days_valid : Nat) (now material serial : Nat)
    (fs : CertFiles) : CertFiles × Nat :=
  if fs.certFile.isSome && fs.keyFile.isSome then (fs, 0)
  else generate_self_signed_cert days_valid now material serial

/-! ## `models.py` / `config.py`: configuration validation

The JSON documents pydantic validates are embedded as `JVal`; numeric
fields are modelled for numeric JSON input (pydantic's lax string-to-number
coercion is outside the fragment the claims quantify over). -/

/-- A JSON value. -/
inductive JVal where
  | num (n : Int) : JVal
  | str (s : String) : JVal
  | bool (b : Bool) : JVal
  | null : JVal
  | obj (fields : List (String × JVal)) : JVal

/-- The value of field `k` of a JSON object, when present. -/
def lookupField (fs : List (String × JVal)) (k : String) : Option JVal :=
  (fs.find? (fun p => p.1 == k)).map Prod.snd

/-- Validate an optional string field with default `dflt`. -/
def vStr (fs : List (String × JVal)) (k : String) (dflt : String) :
    Except String String :=
  match lookupField fs k with
  | none => Except.ok dflt
  | some (JVal.str s) => Except.ok s
  | some _ => Except.error (k ++ ": not a string")

/-- Validate an optional bool field with default `dflt`. -/
def vBool (fs : List (String × JVal)) (k : String) (dflt : Bool) :
    Except String Bool :=
  match lookupField fs k with
  | none => Except.ok dflt
  | some (JVal.bool b) => Except.ok b
  | some _ => Except.error (k ++ ": not a bool")

/-- Validate an optional int field with default `dflt` and optional `ge` /
`le` bounds. -/
def vInt (fs : List (String × JVal)) (k : String) (dflt : Int)
    (ge le : Option Int) : Except String Int :=
  match lookupField fs k with
  | none => Except.ok dflt
  | some (JVal.num n) =>
    if (ge.getD n) ≤ n ∧ n ≤ (le.getD n) then Except.ok n
    else Except.error (k ++ ": out of range")
  | some _ => Except.error (k ++ ": not an int")

/-- Validate an `int | None` field defaulting to `None` (the `indent`
field). -/
def vOptInt (fs : List (String × JVal)) (k : String) :
    Except String (Option Int) :=
  match lookupField fs k with
  | none => Except.ok none
  | some JVal.null => Except.ok none
  | some (JVal.num n) => Except.ok (some n)
  | some _ => Except.error (k ++ ": not an int or null")

/-- `ServerConfigModel` from `models.py`. -/
structure ServerConfigModel where
  host : String
  port : Int
deriving DecidableEq, Repr

/-- `SecurityConfigModel` from `models.py`. -/
structure SecurityConfigModel where
  hsts_max_age : Int
  content_security_policy : String
deriving DecidableEq, Repr

/-- `RateLimitConfigModel` from `models.py`. -/
structure RateLimitConfigModel where
  enabled : Bool
  rate_limit : String
  storage_uri : String
deriving DecidableEq, Repr

/-- `CertificateConfigModel` from `models.py`. -/
structure CertificateConfigModel where
  directory : String
  ssl_keyfile : String
  ssl_certfile : String
  days_valid : Int
deriving DecidableEq, Repr

/-- `JSONResponseConfigModel` from `models.py`. -/
structure JSONResponseConfigModel where
  ensure_ascii : Bool
  allow_nan : Bool
  indent : Option Int
  media_type : String
deriving DecidableEq, Repr

/-- `TemplateServerConfig` from `models.py`. -/
structure TemplateServerConfig where
  server : ServerConfigModel
  security : SecurityConfigModel
  rate_limit : RateLimitConfigModel
  certificate : CertificateConfigModel
  json_response : JSONResponseConfigModel
deriving DecidableEq, Repr

/-- Field validation of `ServerConfigModel`: `host` defaults to
`"localhost"`, `port` defaults to 8000 with `ge=1, le=65535`. -/
def validateServerConfig (fs : List (String × JVal)) :
    Except String ServerConfigModel := do
  let host ← vStr fs "host" "localhost"
  let port ← vInt fs "port" 8000 (some 1) (some 65535)
  Except.ok { host := host, port := port }

/-- Field validation of `SecurityConfigModel`: `hsts_max_age` defaults to
31536000 with `ge=0`; the CSP string defaults to `default-src 'self'`. -/
def validateSecurityConfig (fs : List (String × JVal)) :
    Except String SecurityConfigModel := do
  let age ← vInt fs "hsts_max_age" 31536000 (some 0) none
  let csp ← vStr fs "content_security_policy" "default-src 'self'"
  Except.ok { hsts_max_age := age, content_security_policy := csp }

/-- Field validation of `RateLimitConfigModel`. -/
def validateRateLimitConfig (fs : List (String × JVal)) :
    Except String RateLimitConfigModel := do
  let enabled ← vBool fs "enabled" true
  let rate ← vStr fs "rate_limit" "100/minute"
  let uri ← vStr fs "storage_uri" ""
  Except.ok { enabled := enabled, rate_limit := rate, storage_uri := uri }

/-- Field validation of `CertificateConfigModel`: `days_valid` defaults to
365 with `ge=1`. -/
def validateCertificateConfig (fs : List (String × JVal)) :
    Except String CertificateConfigModel := do
  let dir ← vStr fs "directory" "certs"
  let keyf ← vStr fs "ssl_keyfile" "key.pem"
  let certf ← vStr fs "ssl_certfile" "cert.pem"
  let days ← vInt fs "days_valid" 365 (some 1) none
  Except.ok { directory := dir, ssl_keyfile := keyf, ssl_certfile := certf,
              days_valid := days }

/-- Field validation of `JSONResponseConfigModel`. -/
def validateJSONResponseConfig (fs : List (String × JVal)) :
    Except String JSONResponseConfigModel := do
  let ea ← vBool fs "ensure_ascii" false
  let an ← vBool fs "allow_nan" false
  let ind ← vOptInt fs "indent"
  let mt ← vStr fs "media_type" "application/json; charset=utf-8"
  Except.ok { ensure_ascii := ea, allow_nan := an, indent := ind,
              media_type := mt }

/-- Validate an optional sub-model field: absent means the
`default_factory` value `dflt`, present must be an object accepted by
`f`. -/
def vSub {α : Type} (fs : List (String × JVal)) (k : String)
    (f : List (String × JVal) → Except String α) (dflt : α) :
    Except String α :=
  match lookupField fs k with
  | none => Except.ok dflt
  | some (JVal.obj g) => f g
  | some _ => Except.error (k ++ ": not an object")

/-- `TemplateServerConfig.model_validate`: the document must be an object;
every sub-model is optional with its default; unknown fields are ignored
(pydantic's default `extra="ignore"` behaviour: validation only ever reads
the declared field names). -/
def model_validate (j : JVal) : Except String TemplateServerConfig :=
  match j with
  | JVal.obj fs => do
    let server ← vSub fs "server" validateServerConfig
      { host := "localhost", port := 8000 }
    let security ← vSub fs "security" validateSecurityConfig
      { hsts_max_age := 31536000, content_security_policy := "default-src 'self'" }
    let rate ← vSub fs "rate_limit" validateRateLimitConfig
      { enabled := true, rate_limit := "100/minute", storage_uri := "" }
    let cert ← vSub fs "certificate" validateCertificateConfig
      { directory := "certs", ssl_keyfile := "key.pem",
        ssl_certfile := "cert.pem", days_valid := 365 }
    let jr ← vSub fs "json_response" validateJSONResponseConfig
      { ensure_ascii := false, allow_nan := false, indent := none,
        media_type := "application/json; charset=utf-8" }
    Except.ok { server := server, security := security, rate_limit := rate,
                certificate := cert, json_response := jr }
  | _ => Except.error "not an object"

/-- The outcome of `config.load_config`: a validated configuration, or
process termination with an exit code (`sys.exit`). -/
inductive LoadResult where
  | ok (config : TemplateServerConfig) : LoadResult
  | exit (code : Nat) : LoadResult
deriving DecidableEq, Repr

/-- `config.load_config`: a missing file, a JSON parse failure, or a
validation failure each terminate the process with exit code 1; otherwise
the validated configuration is returned.  The argument is the state of the
configuration file: absent, unparsable, or parsed JSON. -/
def load_config (file : Option (Except String JVal)) : LoadResult :=
  match file with
  | none => LoadResult.exit 1
  | some (Except.error _) => LoadResult.exit 1
  | some (Except.ok j) =>
    match model_validate j with
    | Except.error _ => LoadResult.exit 1
    | Except.ok c => LoadResult.ok c

/-- The configuration built entirely from the documented field defaults. -/
def defaultTemplateServerConfig : TemplateServerConfig :=
  { server := { host := "localhost", port := 8000 }
    security := { hsts_max_age := 31536000,
                  content_security_policy := "default-src 'self'" }
    rate_limit := { enabled := true, rate_limit := "100/minute",
                    storage_uri := "" }
    certificate := { directory := "certs", ssl_keyfile := "key.pem",
                     ssl_certfile := "cert.pem", days_valid := 365 }
    json_response := { ensure_ascii := false, allow_nan := false,
                       indent := none,
                       media_type := "application/json; charset=utf-8" } }

/-- The five field names `TemplateServerConfig` declares; validation never
reads any other key. -/
def knownConfigKeys : List String :=
  ["server", "security", "rate_limit", "certificate", "json_response"]

/-! ## Digest shape lemmas -/

/-- Each byte contributes exactly two hex characters. -/
theorem byteHex_length (b : Nat) : (byteHex b).length = 2 := rfl

/-- A hex digest has two characters per byte. -/
theorem flatMap_byteHex_length (bs : List Nat) :
    (bs.flatMap byteHex).length = 2 * bs.length := by
  induction bs with
  | nil => rfl
  | cons b bs ih => simp [List.flatMap_cons, byteHex_length, ih]; omega

/-- A SHA-256 digest is exactly 32 bytes. -/
theorem sha256_length (msg : List Nat) : (sha256 msg).length = 32 := rfl

/-- `hash_token` always produces a 64-character digest. -/
theorem hash_token_length (t : String) : (hash_token t).length = 64 := by
  have h1 : (sha256 (strBytes t)).length = 32 := sha256_length _
  have h2 := flatMap_byteHex_length (sha256 (strBytes t))
  rw [h1] at h2
  simpa [hash_token, hexDigest, String.length] using h2

/-- `hash_token` never produces the empty string. -/
theorem hash_token_ne_empty (t : String) : hash_token t ≠ "" := by
  intro h
  have := hash_token_length t
  rw [h] at this
  simp [String.length] at this

/-- Any `getD` lookup into the hex alphabet lands in the hex alphabet. -/
theorem hexDigits_getD_mem (i : Nat) : hexDigits.getD i '0' ∈ hexDigits := by
  unfold List.getD
  cases h : hexDigits.get? i with
  | none => decide
  | some c => simpa using List.get?_mem h

/-- Both characters of `byteHex` lie in the lowercase hex alphabet. -/
theorem byteHex_mem_hexDigits (b : Nat) :
    ∀ c ∈ byteHex b, c ∈ hexDigits := by
  intro c hc
  simp only [byteHex, List.mem_cons, List.not_mem_nil, or_false] at hc
  rcases hc with h | h <;> exact h ▸ hexDigits_getD_mem _

/-- Every character of `hash_token` is a lowercase hexadecimal digit. -/
theorem hash_token_chars_hex (t : String) :
    ∀ c ∈ (hash_token t).data, c ∈ hexDigits := by
  intro c hc
  simp only [hash_token, hexDigest, List.mem_flatMap] at hc
  obtain ⟨b, _, hb⟩ := hc
  exact byteHex_mem_hexDigits b c hb

/-- A digest cannot equal any string whose length is not 64. -/
theorem hash_token_ne_of_length (s : String) {d : String} (hd : d.length ≠ 64) :
    hash_token s ≠ d :=
  fun h => hd (h ▸ hash_token_length s)

/-! ## C1: `verify_token` on an empty stored digest -/

/-- C1: for every plaintext token, `verify_token` with an empty stored
digest fails with the configuration-error `ValueError` rather than
returning a boolean, and for every non-empty stored digest it returns the
plain boolean comparison of the recomputed hash with the digest. -/
theorem verify_token_empty_digest_is_error (t : String) :
    verify_token t "" =
      Except.error "No stored token hash found for verification." ∧
    ∀ digest : String, digest ≠ "" →
      verify_token t digest = Except.ok (hash_token t == digest) := by
  refine ⟨rfl, fun d hd => ?_⟩
  simp [verify_token, hd]

/-- Witness for C1 at `t = "abc"`, `digest = "deadbeef"`. -/
theorem verify_token_empty_digest_is_error_witness :
    verify_token "abc" "" =
      Except.error "No stored token hash found for verification." ∧
    verify_token "abc" "deadbeef" = Except.ok (hash_token "abc" == "deadbeef") :=
  ⟨(verify_token_empty_digest_is_error "abc").1,
   (verify_token_empty_digest_is_error "abc").2 "deadbeef" (by decide)⟩

/-! ## C3: the four outcomes of the authentication gate -/

/-- C3: the gate maps the header to exactly one of four outcomes: absent
header rejects 401 `"Missing API key"`; a matching key is allowed; a
non-matching key rejects 401 `"Invalid API key"`; an empty stored hash
rejects 401 with the configuration-error message, which differs from the
invalid-key detail. -/
theorem verify_api_key_four_outcomes (h k : String) :
    verify_api_key h none = AuthOutcome.reject UNAUTHORIZED "Missing API key" ∧
    (h ≠ "" → hash_token k = h →
      verify_api_key h (some k) = AuthOutcome.allow) ∧
    (h ≠ "" → hash_token k ≠ h →
      verify_api_key h (some k) =
        AuthOutcome.reject UNAUTHORIZED "Invalid API key") ∧
    verify_api_key "" (some k) =
      AuthOutcome.reject UNAUTHORIZED
        "No stored token hash found for verification." ∧
    ("No stored token hash found for verification." : String) ≠
      "Invalid API key" := by
  refine ⟨rfl, fun hne hk => ?_, fun hne hk => ?_, rfl, by decide⟩
  · simp [verify_api_key, verify_token, hne, hk]
  · simp [verify_api_key, verify_token, hne, beq_eq_false_iff_ne.mpr hk]

/-- Witness for C3: generated token accepted, wrong token rejected as
invalid, absent header rejected as missing, empty store rejected with the
configuration-error detail. -/
theorem verify_api_key_four_outcomes_witness :
    verify_api_key (hash_token "T") (some "T") = AuthOutcome.allow ∧
    verify_api_key "deadbeef" (some "wrong") =
      AuthOutcome.reject UNAUTHORIZED "Invalid API key" ∧
    verify_api_key "deadbeef" none =
      AuthOutcome.reject UNAUTHORIZED "Missing API key" ∧
    verify_api_key "" (some "wrong") =
      AuthOutcome.reject UNAUTHORIZED
        "No stored token hash found for verification." :=
  ⟨(verify_api_key_four_outcomes (hash_token "T") "T").2.1
      (hash_token_ne_empty "T") rfl,
   (verify_api_key_four_outcomes "deadbeef" "wrong").2.2.1 (by decide)
      (hash_token_ne_of_length "wrong" (by decide)),
   (verify_api_key_four_outcomes "deadbeef" "wrong").1,
   (verify_api_key_four_outcomes "" "wrong").2.2.2.1⟩

/-! ## C10: the missing outcome occurs exactly for an absent header -/

/-- C10: the `"Missing API key"` rejection happens exactly when the header
is `None`; under a non-empty stored hash every present value, the empty
string included, is either allowed (its hash matches) or rejected as
`"Invalid API key"` — an empty-string key is invalid, not missing. -/
theorem verify_api_key_missing_iff_absent (h : String) (x : Option String) :
    (verify_api_key h x = AuthOutcome.reject UNAUTHORIZED "Missing API key" ↔
      x = none) ∧
    (h ≠ "" → ∀ k : String,
      verify_api_key h (some k) = AuthOutcome.allow ∨
      verify_api_key h (some k) =
        AuthOutcome.reject UNAUTHORIZED "Invalid API key") ∧
    (h ≠ "" → hash_token "" ≠ h →
      verify_api_key h (some "") =
        AuthOutcome.reject UNAUTHORIZED "Invalid API key") := by
  refine ⟨⟨fun he => ?_, fun he => he ▸ rfl⟩, fun hne k => ?_, fun hne hk => ?_⟩
  · cases x with
    | none => rfl
    | some k =>
      exfalso
      by_cases hh : h = ""
      · rw [hh] at he
        simp [verify_api_key, verify_token] at he
      · by_cases hk : hash_token k == h <;>
          simp [verify_api_key, verify_token, hh, hk] at he
  · by_cases hk : hash_token k == h <;>
      simp [verify_api_key, verify_token, hne, hk]
  · simp [verify_api_key, verify_token, hne, beq_eq_false_iff_ne.mpr hk]

/-- Witness for C10 at the stored hash `"deadbeef"` and the empty-string
key. -/
theorem verify_api_key_missing_iff_absent_witness :
    verify_api_key "deadbeef" (some "") =
      AuthOutcome.reject UNAUTHORIZED "Invalid API key" ∧
    (verify_api_key "deadbeef" none =
        AuthOutcome.reject UNAUTHORIZED "Missing API key" ↔
      (none : Option String) = none) :=
  ⟨(verify_api_key_missing_iff_absent "deadbeef" none).2.2 (by decide)
      (hash_token_ne_of_length "" (by decide)),
   (verify_api_key_missing_iff_absent "deadbeef" none).1⟩

/-! ## C2: the two observable states of the health endpoint

`get_health` puts the 200 / 500 distinction in the `code` field of its
payload; the route itself is registered by `add_unauthenticated_route`
without a `status_code`, so the transport status the framework sends is
its default 200 in both states.  The claim as frozen asserts an HTTP 500
status for the unhealthy state; the counterexample below evaluates the
route at an empty token hash and finds transport status 200 with payload
code 500. -/

/-- C2 counterexample: with an empty loaded hash the `/health` route
responds on the wire with status 200, not 500 — the 500 sits in the
payload's `code` field. -/
theorem health_route_unhealthy_status_not_500 :
    (health_route "" "ts").1 = 200 ∧
    (health_route "" "ts").1 ≠ 500 ∧
    (health_route "" "ts").2.code = 500 ∧
    (health_route "" "ts").2.status = ServerHealthStatus.unhealthy := by
  refine ⟨rfl, by decide, rfl, rfl⟩

/-- C2 (amended): the health endpoint has exactly two observable states —
non-empty hash gives the healthy payload with code 200, empty hash gives
the distinct unhealthy payload with code 500; the transport status is the
framework default 200 in both; no third status value is reachable. -/
theorem get_health_two_states (h ts : String) :
    (h ≠ "" → health_route h ts =
      (200, { code := OK, message := "Server is healthy", timestamp := ts,
              status := ServerHealthStatus.healthy })) ∧
    (h = "" → health_route h ts =
      (200, { code := INTERNAL_SERVER_ERROR,
              message := "Server token is not configured", timestamp := ts,
              status := ServerHealthStatus.unhealthy })) ∧
    (health_route h ts).2.status ≠ ServerHealthStatus.degraded := by
  refine ⟨fun hne => ?_, fun he => ?_, ?_⟩
  · simp [health_route, get_health, hne]
  · simp [health_route, get_health, he]
  · by_cases hh : h = "" <;> simp [health_route, get_health, hh]

/-- Witness for C2 at a configured and an unconfigured store. -/
theorem get_health_two_states_witness :
    health_route "deadbeef" "ts" =
      (200, { code := OK, message := "Server is healthy", timestamp := "ts",
              status := ServerHealthStatus.healthy }) ∧
    health_route "" "ts" =
      (200, { code := INTERNAL_SERVER_ERROR,
              message := "Server token is not configured", timestamp := "ts",
              status := ServerHealthStatus.unhealthy }) :=
  ⟨(get_health_two_states "deadbeef" "ts").1 (by decide),
   (get_health_two_states "" "ts").2.1 rfl⟩

/-! ## C4: the gate and the authentication counters

The tests (`test_template_server.py`,
`test_auth_success_metric_incremented` and its three failure-reason
variants) assert that each gate outcome increments `auth_success_total` or
the matching `auth_failure_total` label, but the gate body in
`template_server.py` contains no counter operation and the server holds no
`PrometheusHandler`, so no invocation increments anything. -/

/-- C4: evaluating the gate at a concrete failing input — one invocation
with an absent header starting from zeroed counters — leaves the sum of
the four outcome counters at 0, not at the number of invocations, 1. -/
theorem verify_api_key_increments_no_counter :
    (verify_api_key_metrics "deadbeef" none
        { success := 0, missing := 0, invalid := 0, error := 0 }).2.total = 0 ∧
    (verify_api_key_metrics "deadbeef" none
        { success := 0, missing := 0, invalid := 0, error := 0 }).1 =
      AuthOutcome.reject UNAUTHORIZED "Missing API key" ∧
    (0 : Nat) ≠ 1 := by
  refine ⟨rfl, rfl, by decide⟩

/-! ## Env-store lemmas -/

/-- On a file that carries the key, `setKey` is the rewrite of every
matching line. -/
theorem setKey_of_any (f : EnvFile) (k v : String)
    (ha : f.any (fun p => p.1 == k) = true) :
    setKey f k v = f.map (fun p => if p.1 = k then (k, v) else p) := by
  unfold setKey
  rw [if_pos ha]

/-- On a file that does not carry the key, `setKey` is the append of the
new line. -/
theorem setKey_of_not_any (f : EnvFile) (k v : String)
    (ha : ¬f.any (fun p => p.1 == k) = true) :
    setKey f k v = f ++ [(k, v)] := by
  unfold setKey
  rw [if_neg ha]

/-- The new `k=v` pair is always an entry of the file after `setKey`. -/
theorem setKey_self_mem (f : EnvFile) (k v : String) : (k, v) ∈ setKey f k v := by
  by_cases ha : f.any (fun p => p.1 == k)
  · rw [setKey_of_any f k v ha]
    rw [List.any_eq_true] at ha
    obtain ⟨p, hp, hpk⟩ := ha
    refine List.mem_map.mpr ⟨p, hp, ?_⟩
    simp [eq_of_beq hpk]
  · rw [setKey_of_not_any f k v ha]
    simp

/-- Every entry carrying `k` after `setKey` is the pair just written. -/
theorem setKey_mem_key (f : EnvFile) (k v : String) :
    ∀ x ∈ setKey f k v, x.1 = k → x = (k, v) := by
  intro x hx hxk
  unfold setKey at hx
  by_cases ha : f.any (fun p => p.1 == k)
  · rw [if_pos ha] at hx
    obtain ⟨p, hp, hpx⟩ := List.mem_map.mp hx
    by_cases hpk : p.1 = k
    · rw [if_pos hpk] at hpx
      exact hpx.symm
    · rw [if_neg hpk] at hpx
      exact absurd (hpx ▸ hxk) hpk
  · rw [if_neg ha] at hx
    rcases List.mem_append.mp hx with hf | hs
    · exact absurd (List.any_eq_true.mpr ⟨x, hf, by simp [hxk]⟩) ha
    · simpa using hs

/-- Reading back the key just set yields the value just written (the load
gives the last line for the key precedence; every line for the key is the
one just written). -/
theorem getKey_setKey (f : EnvFile) (k v : String) :
    getKey (setKey f k v) k = v := by
  unfold getKey
  cases hfind : (setKey f k v).reverse.find? (fun p => p.1 == k) with
  | none =>
    rw [List.find?_eq_none] at hfind
    exact absurd (by simp)
      (hfind (k, v) (List.mem_reverse.mpr (setKey_self_mem f k v)))
  | some x =>
    have hx := List.mem_reverse.mp (List.mem_of_find?_eq_some hfind)
    have hpred := List.find?_some hfind
    have hxv := setKey_mem_key f k v x hx (by simpa using hpred)
    simp [hxv]

/-- Overwriting a key twice is the same as writing it once with the second
value: `setKey` rewrites in place, never appends a second line. -/
theorem setKey_setKey (f : EnvFile) (k v v2 : String) :
    setKey (setKey f k v) k v2 = setKey f k v2 := by
  have hany : (setKey f k v).any (fun p => p.1 == k) = true :=
    List.any_eq_true.mpr ⟨(k, v), setKey_self_mem f k v, by simp⟩
  rw [setKey_of_any _ _ _ hany]
  by_cases ha : f.any (fun p => p.1 == k)
  · rw [setKey_of_any _ _ _ ha, setKey_of_any _ _ _ ha, List.map_map]
    refine List.map_congr_left (fun p hp => ?_)
    by_cases hpk : p.1 = k
    · simp [Function.comp, hpk]
    · simp [Function.comp, hpk]
  · rw [setKey_of_not_any _ _ _ ha, setKey_of_not_any _ _ _ ha,
      List.map_append]
    have hid : f.map (fun p => if p.1 = k then (k, v2) else p) = f := by
      have := List.map_congr_left (l := f)
        (f := fun p => if p.1 = k then (k, v2) else p) (g := id) ?_
      · simpa using this
      · intro p hp
        have hpk : ¬p.1 = k := by
          intro he
          exact absurd (List.any_eq_true.mpr ⟨p, hp, by simp [he]⟩) ha
        simp [hpk]
    rw [hid]
    simp

/-- The length of `setKey` does not depend on the value written. -/
theorem setKey_length_value_free (f : EnvFile) (k v v2 : String) :
    (setKey f k v2).length = (setKey f k v).length := by
  unfold setKey
  by_cases ha : f.any (fun p => p.1 == k) <;> simp [ha]

/-- Rewriting the `k`-entries leaves the entries under other keys
untouched. -/
theorem filter_map_setKey (f : EnvFile) (k v : String) :
    (f.map (fun p => if p.1 = k then (k, v) else p)).filter
        (fun p => !(p.1 == k)) =
      f.filter (fun p => !(p.1 == k)) := by
  induction f with
  | nil => rfl
  | cons p rest ih =>
    by_cases hp : p.1 = k
    · simp [List.filter_cons, hp, ih]
    · simp [List.filter_cons, hp, ih]

/-- `setKey` preserves every entry whose key differs from `k`, in order. -/
theorem setKey_frame (f : EnvFile) (k v : String) :
    (setKey f k v).filter (fun p => !(p.1 == k)) =
      f.filter (fun p => !(p.1 == k)) := by
  unfold setKey
  by_cases ha : f.any (fun p => p.1 == k)
  · rw [if_pos ha, filter_map_setKey]
  · rw [if_neg ha, List.filter_append]
    simp

/-! ## C5: persistence round-trip and overwrite -/

/-- C5: from every prior state of the store, a load after a save returns
exactly the digest of the saved token; a second save rewrites the single
key in place — it equals a single save of the second token and keeps the
entry count, never appending — and a load then returns exactly the second
digest, so at most one token hash is active: every line under the
recognized key carries the digest just saved. -/
theorem save_load_roundtrip (t t2 : String) (store : Option EnvFile) :
    load_hashed_token (some (save_hashed_token t store)) = hash_token t ∧
    save_hashed_token t2 (some (save_hashed_token t store)) =
      save_hashed_token t2 store ∧
    (save_hashed_token t2 (some (save_hashed_token t store))).length =
      (save_hashed_token t store).length ∧
    load_hashed_token
        (some (save_hashed_token t2 (some (save_hashed_token t store)))) =
      hash_token t2 ∧
    (save_hashed_token t store).all
      (fun x => !(x.1 == ENV_VAR_NAME) || (x.2 == hash_token t)) = true := by
  have hcollapse : save_hashed_token t2 (some (save_hashed_token t store)) =
      save_hashed_token t2 store := by
    simp only [save_hashed_token, Option.getD_some]
    exact setKey_setKey (store.getD []) ENV_VAR_NAME (hash_token t)
      (hash_token t2)
  refine ⟨?_, hcollapse, ?_, ?_, ?_⟩
  · simpa [load_hashed_token, save_hashed_token] using
      getKey_setKey (store.getD []) ENV_VAR_NAME (hash_token t)
  · rw [hcollapse]
    simp only [save_hashed_token]
    exact setKey_length_value_free (store.getD []) ENV_VAR_NAME
      (hash_token t) (hash_token t2)
  · rw [hcollapse]
    simpa [load_hashed_token, save_hashed_token] using
      getKey_setKey (store.getD []) ENV_VAR_NAME (hash_token t2)
  · rw [List.all_eq_true]
    intro x hx
    by_cases hxk : x.1 = ENV_VAR_NAME
    · have := setKey_mem_key (store.getD []) ENV_VAR_NAME (hash_token t) x
        (by simpa [save_hashed_token] using hx) hxk
      simp [this]
    · simp [hxk]

/-! ## C6: certificate bootstrap idempotence -/

/-- C6: when both certificate files exist the bootstrap step of `run`
performs zero writes and leaves the state untouched; when either is
missing it regenerates both files from this call's fresh material (a lone
leftover is never reused) with two writes; and a second bootstrap right
after any bootstrap performs zero writes. -/
theorem bootstrapCertificates_idempotent
    (d now m s d2 now2 m2 s2 : Nat) (fs : CertFiles) :
    (fs.certFile.isSome ∧ fs.keyFile.isSome →
      bootstrapCertificates d now m s fs = (fs, 0)) ∧
    (fs.certFile = none ∨ fs.keyFile = none →
      bootstrapCertificates d now m s fs =
        generate_self_signed_cert d now m s ∧
      (bootstrapCertificates d now m s fs).1.keyFile =
        some (Encoding.pem, new_private_key m) ∧
      (bootstrapCertificates d now m s fs).1.certFile.isSome = true ∧
      (bootstrapCertificates d now m s fs).2 = 2) ∧
    (bootstrapCertificates d2 now2 m2 s2
        (bootstrapCertificates d now m s fs).1).2 = 0 := by
  refine ⟨fun hsome => ?_, fun hmiss => ?_, ?_⟩
  · simp [bootstrapCertificates, hsome.1, hsome.2]
  · have hcond : (fs.certFile.isSome && fs.keyFile.isSome) = false := by
      rcases hmiss with h | h <;> simp [h]
    refine ⟨?_, ?_, ?_, ?_⟩ <;>
      simp [bootstrapCertificates, hcond, generate_self_signed_cert,
        new_private_key]
  · by_cases hc : fs.certFile.isSome <;> by_cases hk : fs.keyFile.isSome <;>
      simp [bootstrapCertificates, hc, hk, generate_self_signed_cert]

/-- Witness for C6 at a state with both files present (the output of a
generation call) and at the empty state. -/
theorem bootstrapCertificates_idempotent_witness :
    bootstrapCertificates 365 5 7 9 (generate_self_signed_cert 30 1 2 3).1 =
      ((generate_self_signed_cert 30 1 2 3).1, 0) ∧
    bootstrapCertificates 365 5 7 9 { keyFile := none, certFile := none } =
      generate_self_signed_cert 365 5 7 9 ∧
    (bootstrapCertificates 365 5 7 9 { keyFile := none, certFile := none }).2 = 2 :=
  ⟨(bootstrapCertificates_idempotent 365 5 7 9 0 0 0 0
      (generate_self_signed_cert 30 1 2 3).1).1 (by decide),
   ((bootstrapCertificates_idempotent 365 5 7 9 0 0 0 0
      { keyFile := none, certFile := none }).2.1 (Or.inl rfl)).1,
   ((bootstrapCertificates_idempotent 365 5 7 9 0 0 0 0
      { keyFile := none, certFile := none }).2.1 (Or.inl rfl)).2.2.2⟩

/-! ## C7: shape of every generated certificate -/

/-- C7: every certificate produced by `generate_self_signed_cert` has
subject equal to issuer, a 4096-bit RSA key with exponent 65537, a
validity window of exactly `days_valid` days, a non-critical SAN covering
`localhost` and the IPv4 loopback, and both artifacts serialized as
PEM. -/
theorem generate_self_signed_cert_spec (d now m s : Nat) :
    ∃ key cert,
      (generate_self_signed_cert d now m s).1.keyFile =
        some (Encoding.pem, key) ∧
      (generate_self_signed_cert d now m s).1.certFile =
        some (Encoding.pem, cert) ∧
      cert.subject = cert.issuer ∧
      key.key_size = 4096 ∧
      key.public_exponent = 65537 ∧
      cert.publicKeyOf = key ∧
      cert.notBefore = now ∧
      cert.notAfter - cert.notBefore = d * secondsPerDay ∧
      cert.sanCritical = false ∧
      GeneralName.dns "localhost" ∈ cert.sanNames ∧
      GeneralName.ip "127.0.0.1" ∈ cert.sanNames :=
  ⟨new_private_key m,
   { subject := certificate_subject, issuer := certificate_subject,
     publicKeyOf := new_private_key m, serial := s, notBefore := now,
     notAfter := now + d * secondsPerDay,
     sanNames := [GeneralName.dns "localhost", GeneralName.dns "127.0.0.1",
                  GeneralName.ip "127.0.0.1"],
     sanCritical := false },
   rfl, rfl, rfl, rfl, rfl, rfl, rfl,
   by show now + d * secondsPerDay - now = d * secondsPerDay; omega,
   rfl, by simp, by simp⟩

/-! ## C8: configuration validation -/

/-- Appending an entry under a fresh key changes no lookup of another
key. -/
theorem lookupField_append (fs : List (String × JVal)) (k2 k : String)
    (v : JVal) (hne : k2 ≠ k) :
    lookupField (fs ++ [(k, v)]) k2 = lookupField fs k2 := by
  unfold lookupField
  rw [List.find?_append]
  cases hfind : fs.find? (fun p => p.1 == k2) with
  | some x => simp
  | none =>
    have hkk : (k == k2) = false :=
      beq_eq_false_iff_ne.mpr (fun h => hne h.symm)
    simp [List.find?, hkk]

/-- Supplying only a port validates exactly on the documented range. -/
theorem model_validate_port_eval (n : Int) :
    model_validate (JVal.obj [("server", JVal.obj [("port", JVal.num n)])]) =
      if 1 ≤ n ∧ n ≤ 65535 then
        Except.ok { defaultTemplateServerConfig with
          server := { host := "localhost", port := n } }
      else Except.error "port: out of range" := by
  by_cases hn : 1 ≤ n ∧ n ≤ 65535
  · simp [model_validate, vSub, lookupField, validateServerConfig, vStr, vInt,
      hn, defaultTemplateServerConfig, Bind.bind, Except.bind]
  · simp [model_validate, vSub, lookupField, validateServerConfig, vStr, vInt,
      hn, defaultTemplateServerConfig, Bind.bind, Except.bind]

/-- Supplying only a certificate validity validates exactly on `ge=1`. -/
theorem model_validate_days_eval (n : Int) :
    model_validate
        (JVal.obj [("certificate", JVal.obj [("days_valid", JVal.num n)])]) =
      if 1 ≤ n then
        Except.ok { defaultTemplateServerConfig with
          certificate := { directory := "certs", ssl_keyfile := "key.pem",
                           ssl_certfile := "cert.pem", days_valid := n } }
      else Except.error "days_valid: out of range" := by
  by_cases hn : 1 ≤ n
  · simp [model_validate, vSub, lookupField, validateCertificateConfig, vStr,
      vInt, hn, defaultTemplateServerConfig, Bind.bind, Except.bind]
  · simp [model_validate, vSub, lookupField, validateCertificateConfig, vStr,
      vInt, hn, defaultTemplateServerConfig, Bind.bind, Except.bind]

/-- C8: validation fills every documented default on an empty document,
accepts a supplied port exactly on [1, 65535] and a supplied certificate
validity exactly on `days_valid ≥ 1`, ignores unknown fields, and
`load_config` either returns a fully validated configuration or terminates
the process with exit status 1 — never a partially applied one. -/
theorem config_validation_spec :
    model_validate (JVal.obj []) = Except.ok defaultTemplateServerConfig ∧
    (∀ n : Int,
      (∃ c, model_validate
          (JVal.obj [("server", JVal.obj [("port", JVal.num n)])]) =
            Except.ok c ∧ c.server.port = n) ↔
        1 ≤ n ∧ n ≤ 65535) ∧
    (∀ n : Int,
      (∃ c, model_validate
          (JVal.obj [("certificate",
            JVal.obj [("days_valid", JVal.num n)])]) =
            Except.ok c ∧ c.certificate.days_valid = n) ↔
        1 ≤ n) ∧
    (∀ fs k v, k ∉ knownConfigKeys →
      model_validate (JVal.obj (fs ++ [(k, v)])) =
        model_validate (JVal.obj fs)) ∧
    (∀ file, (∃ j c, file = some (Except.ok j) ∧
        model_validate j = Except.ok c ∧
        load_config file = LoadResult.ok c) ∨
      load_config file = LoadResult.exit 1) := by
  refine ⟨rfl, fun n => ⟨fun hok => ?_, fun hn => ?_⟩,
    fun n => ⟨fun hok => ?_, fun hn => ?_⟩, fun fs k v hk => ?_, fun file => ?_⟩
  · by_cases hn : 1 ≤ n ∧ n ≤ 65535
    · exact hn
    · obtain ⟨c, hc, _⟩ := hok
      rw [model_validate_port_eval, if_neg hn] at hc
      exact absurd hc (by simp)
  · exact ⟨_, by rw [model_validate_port_eval, if_pos hn], rfl⟩
  · by_cases hn : 1 ≤ n
    · exact hn
    · obtain ⟨c, hc, _⟩ := hok
      rw [model_validate_days_eval, if_neg hn] at hc
      exact absurd hc (by simp)
  · exact ⟨_, by rw [model_validate_days_eval, if_pos hn], rfl⟩
  · obtain ⟨h1, h2, h3, h4, h5⟩ :
        ¬k = "server" ∧ ¬k = "security" ∧ ¬k = "rate_limit" ∧
          ¬k = "certificate" ∧ ¬k = "json_response" := by
      simpa [knownConfigKeys] using hk
    simp only [model_validate, vSub,
      lookupField_append fs "server" k v (Ne.symm h1),
      lookupField_append fs "security" k v (Ne.symm h2),
      lookupField_append fs "rate_limit" k v (Ne.symm h3),
      lookupField_append fs "certificate" k v (Ne.symm h4),
      lookupField_append fs "json_response" k v (Ne.symm h5)]
  · match file with
    | none => exact Or.inr rfl
    | some (Except.error _) => exact Or.inr rfl
    | some (Except.ok j) =>
      cases hm : model_validate j with
      | error e => exact Or.inr (by simp [load_config, hm])
      | ok c => exact Or.inl ⟨j, c, rfl, hm, by simp [load_config, hm]⟩

/-- Witness for C8: a document with only an unknown field validates like
the empty document, which yields every default. -/
theorem config_validation_spec_witness :
    model_validate (JVal.obj ([] ++ [("bogus", JVal.num 3)])) =
      model_validate (JVal.obj []) ∧
    model_validate (JVal.obj []) = Except.ok defaultTemplateServerConfig :=
  ⟨config_validation_spec.2.2.2.1 [] "bogus" (JVal.num 3) (by decide),
   config_validation_spec.1⟩

/-! ## C9: the frame property of token persistence -/

/-- C9: saving a token rewrites only the `API_TOKEN_HASH` entry of the env
file — every entry under another key is preserved in order — creates the
file as the singleton entry when absent, and writes as value the 64
lowercase hexadecimal characters of the SHA-256 digest. -/
theorem save_hashed_token_frame (t : String) (store : Option EnvFile) :
    (save_hashed_token t store).filter (fun p => !(p.1 == ENV_VAR_NAME)) =
      (store.getD []).filter (fun p => !(p.1 == ENV_VAR_NAME)) ∧
    getKey (save_hashed_token t store) ENV_VAR_NAME = hash_token t ∧
    save_hashed_token t none = [(ENV_VAR_NAME, hash_token t)] ∧
    (hash_token t).length = 64 ∧
    (hash_token t).data.all (fun c => hexDigits.contains c) = true := by
  refine ⟨?_, ?_, rfl, hash_token_length t, ?_⟩
  · simpa [save_hashed_token] using
      setKey_frame (store.getD []) ENV_VAR_NAME (hash_token t)
  · simpa [save_hashed_token] using
      getKey_setKey (store.getD []) ENV_VAR_NAME (hash_token t)
  · rw [List.all_eq_true]
    intro c hc
    simpa [List.contains, List.elem_iff] using hash_token_chars_hex t c hc

end PTS
